import Mathlib

/-!
Verification of `html2image/browsers/firefox.py` (`FirefoxHeadless`).

The Python class is shallowly embedded: the constructor and the two
property setters become pure state transformers, and `screenshot` becomes
a pure function from an environment and a browser state to a result that
records either the raised exception or the ordered list of side effects
(stdout print, subprocess execution, file move) the call performs.
-/

namespace Html2Image

/-- Python exceptions relevant to this module: `ValueError` raised by the
validation in `screenshot`, `KeyError` raised by `os.environ['TMP']` when
the variable is absent, and the resolution error of the executable
locator. -/
inductive PyError where
  | valueError (msg : String)
  | keyError (key : String)
  | resolutionError (msg : String)
  deriving DecidableEq, Repr

/-- Setting of one standard stream of the child process: inherited from the
parent (`subprocess.run` default, empty kwargs dict) or redirected to
`subprocess.DEVNULL`. -/
inductive StdStream where
  | inherit
  | devnull
  deriving DecidableEq, Repr

/-- The cached `_subprocess_run_kwargs` dict: stream settings passed to
`subprocess.run`. The empty dict corresponds to both streams inherited. -/
structure SubprocessRunKwargs where
  stdout : StdStream
  stderr : StdStream
  deriving DecidableEq, Repr

/-- An observable side effect of a `screenshot` call, in program order:
a `print` to stdout, a `subprocess.run(command, **kwargs, cwd=...)`, or a
`shutil.move(src, dst)` (which overwrites an existing regular file at
`dst`). -/
inductive Effect where
  | printStdout (line : String)
  | runSubprocess (cmd : List String) (kwargs : SubprocessRunKwargs) (cwd : String)
  | moveOverwrite (src : String) (dst : String)
  deriving DecidableEq, Repr

/-- The outcome of a `screenshot` call: the exception it raised, if any,
together with the side effects performed before returning or raising. -/
structure ScreenshotResult where
  error : Option PyError
  effects : List Effect
  deriving DecidableEq, Repr

/-- The state of a `FirefoxHeadless` instance after construction: the
resolved `_executable`, the flag list, `print_command`, and the
`_disable_logging` flag together with its cached
`_subprocess_run_kwargs`. -/
structure FirefoxHeadless where
  _executable : String
  flags : List String
  print_command : Bool
  _disable_logging : Bool
  _subprocess_run_kwargs : SubprocessRunKwargs
  deriving DecidableEq, Repr

/-- The ambient process environment `screenshot` reads: `os.name` and the
value of the `TMP` environment variable (`none` when unset). -/
structure Env where
  osName : String
  tmp : Option String
  deriving DecidableEq, Repr

/-- The path separator of `os.path.join`: backslash on the `nt` platform
family, slash elsewhere. -/
def osSep (osName : String) : String :=
  if osName = "nt" then "\\" else "/"

/-- Python `str.startswith`, computed on the character lists. -/
def strStartsWith (s pre : String) : Bool :=
  pre.toList.isPrefixOf s.toList

/-- Python `str.endswith`, computed on the character lists. -/
def strEndsWith (s suf : String) : Bool :=
  suf.toList.isSuffixOf s.toList

/-- Model of `os.path.join(a, b)`: if `b` starts with the separator it replaces `a`;
otherwise `b` is appended to `a`, inserting a separator unless `a` is
empty or already ends with one.  This matches `posixpath.join` exactly;
on `nt` it models the drive-letter-free case used by this module. -/
def osPathJoin (osName a b : String) : String :=
  if strStartsWith b (osSep osName) then b
  else if a = "" ∨ strEndsWith a (osSep osName) then a ++ b
  else a ++ osSep osName ++ b

/-- The `flags` argument of the constructor: Python allows `None`, a single
string, or a list of strings. -/
inductive FlagsArg where
  | none
  | str (s : String)
  | list (l : List String)
  deriving DecidableEq, Repr

/-- The two default flags installed when `flags` is falsy. -/
def defaultFlags : List String :=
  ["--default-background-color=00000000", "--hide-scrollbars"]

/-- The flag list the constructor stores:
`if not flags: <defaults> else: [flags] if isinstance(flags, str) else flags`.
`None`, the empty string and the empty list are falsy in Python. -/
def initFlags : FlagsArg → List String
  | .none => defaultFlags
  | .str s => if s = "" then defaultFlags else [s]
  | .list l => if l = [] then defaultFlags else l

/-- Modelled from the spec: the Executable Locator collaborator
(`find_firefox` from `search_utils`, whose source is not among the given
files).  Per the spec it is "given an optional hint string, returns a
validated executable path or fails with a resolution error"; since the
spec fixes no algorithm, it is modelled as an abstract function of that
shape, passed as a parameter wherever the Python code calls it. -/
def Locator : Type := Option String → Except PyError String

/-- The `executable` property setter:
`self._executable = find_firefox(value)`.  A locator failure propagates
as an exception out of the assignment. -/
def FirefoxHeadless.setExecutable (locator : Locator) (b : FirefoxHeadless)
    (value : Option String) : Except PyError FirefoxHeadless :=
  (locator value).map fun p => { b with _executable := p }

/-- The `disable_logging` property setter: stores the value and rebuilds
`_subprocess_run_kwargs` (`DEVNULL` for both streams when true, the empty
dict — inherited streams — when false). -/
def FirefoxHeadless.setDisableLogging (b : FirefoxHeadless) (value : Bool) :
    FirefoxHeadless :=
  { b with
    _disable_logging := value
    _subprocess_run_kwargs :=
      if value then ⟨.devnull, .devnull⟩ else ⟨.inherit, .inherit⟩ }

/-- A pre-construction placeholder state; `FirefoxHeadless.init` overwrites
every field through the same assignments the Python `__init__` performs. -/
def FirefoxHeadless.blank : FirefoxHeadless :=
  { _executable := ""
    flags := []
    print_command := false
    _disable_logging := false
    _subprocess_run_kwargs := ⟨.inherit, .inherit⟩ }

/-- The constructor `FirefoxHeadless.__init__`: assigns `self.executable` (running the
executable setter, hence the locator), stores the flag list, stores
`print_command`, and assigns `self.disable_logging` (running its setter,
hence caching the subprocess kwargs). -/
def FirefoxHeadless.init (locator : Locator) (executable : Option String)
    (flags : FlagsArg) (print_command disable_logging : Bool) :
    Except PyError FirefoxHeadless :=
  (FirefoxHeadless.blank.setExecutable locator executable).map fun b =>
    ({ b with flags := initFlags flags, print_command := print_command
     }).setDisableLogging disable_logging

/-- The message of the `ValueError` raised for an empty `input`. -/
def inputEmptyMsg : String := "The `input` parameter is empty."

/-- Python `str` of a pair of ints, as `f'{size}'` renders it. -/
def pyPairRepr (size : Int × Int) : String :=
  "(" ++ toString size.1 ++ ", " ++ toString size.2 ++ ")"

/-- The message of the `ValueError` raised for an invalid `size`. -/
def sizeErrorMsg (output_file : String) (size : Int × Int) : String :=
  "Could not screenshot \"" ++ output_file ++ "\" with a size of " ++
    pyPairRepr size ++
    ":\nA valid size consists of two integers greater than 0."

/-- The composed command line:
executable, `--headless`, `--window-size=<w>,<h>`, the configured flags,
`--screenshot`, `-url`, the input. -/
def buildCommand (b : FirefoxHeadless) (input : String) (size : Int × Int) :
    List String :=
  [b._executable, "--headless",
   "--window-size=" ++ toString size.1 ++ "," ++ toString size.2]
  ++ b.flags
  ++ ["--screenshot", "-url", input]

/-- Model of `os.environ['TMP'] if os.name == 'nt' else '/tmp'`: the temp root, or
the `KeyError` the environment lookup raises when `TMP` is unset on
`nt`. -/
def tempRootE (env : Env) : Except PyError String :=
  if env.osName = "nt" then
    match env.tmp with
    | some t => Except.ok t
    | Option.none => Except.error (.keyError "TMP")
  else Except.ok "/tmp"

/-- The method `FirefoxHeadless.screenshot(input, output_path, output_file, size)`:
validates `input` and `size`, composes the destination path and the
command line, optionally prints the command, then runs the browser with
the fixed temp directory as working directory and moves
`screenshot.png` from there to the destination. -/
def FirefoxHeadless.screenshot (env : Env) (b : FirefoxHeadless)
    (input output_path output_file : String) (size : Int × Int) :
    ScreenshotResult :=
  if input = "" then
    { error := some (.valueError inputEmptyMsg), effects := [] }
  else if size.1 < 1 ∨ size.2 < 1 then
    { error := some (.valueError (sizeErrorMsg output_file size)), effects := [] }
  else
    let output_path_file := osPathJoin env.osName output_path output_file
    let command := buildCommand b input size
    let printed :=
      if b.print_command then
        [Effect.printStdout (String.intercalate " " command)]
      else []
    match tempRootE env with
    | Except.error e => { error := some e, effects := printed }
    | Except.ok root =>
      let temp_dir := osPathJoin env.osName root "html2image"
      { error := none
        effects := printed ++
          [Effect.runSubprocess command b._subprocess_run_kwargs temp_dir,
           Effect.moveOverwrite (osPathJoin env.osName temp_dir "screenshot.png")
             output_path_file] }

/-- The working directory of the (first) subprocess execution a result
performed, if any. -/
def cwdOf (r : ScreenshotResult) : Option String :=
  r.effects.findSome? fun e =>
    match e with
    | .runSubprocess _ _ cwd => some cwd
    | _ => none

/-- The stream kwargs of the (first) subprocess execution a result
performed, if any. -/
def kwargsOf (r : ScreenshotResult) : Option SubprocessRunKwargs :=
  r.effects.findSome? fun e =>
    match e with
    | .runSubprocess _ kw _ => some kw
    | _ => none

/-- The command of the (first) subprocess execution a result performed, if
any. -/
def cmdOf (r : ScreenshotResult) : Option (List String) :=
  r.effects.findSome? fun e =>
    match e with
    | .runSubprocess cmd _ _ => some cmd
    | _ => none

/-- Whether an optional raised error is a `ValueError` (the class of both
validation errors). -/
def isValueError : Option PyError → Bool
  | some (.valueError _) => true
  | _ => false

/-- The string `pat` occurs as a contiguous substring of `s`. -/
def strContains (s pat : String) : Prop :=
  pat.toList <:+: s.toList

instance (s pat : String) : Decidable (strContains s pat) :=
  inferInstanceAs (Decidable (pat.toList <:+: s.toList))

/-- A sample posix-family environment used in concrete evaluations. -/
def posixEnv : Env := { osName := "posix", tmp := Option.none }

/-- A sample constructed browser state used in concrete evaluations. -/
def sampleBrowser : FirefoxHeadless :=
  { _executable := "/usr/bin/firefox"
    flags := defaultFlags
    print_command := false
    _disable_logging := false
    _subprocess_run_kwargs := ⟨.inherit, .inherit⟩ }

example :
    FirefoxHeadless.screenshot posixEnv sampleBrowser
      "https://example.com" "/out" "a.png" (800, 600) =
    { error := Option.none
      effects :=
        [Effect.runSubprocess
          ["/usr/bin/firefox", "--headless", "--window-size=800,600",
           "--default-background-color=00000000", "--hide-scrollbars",
           "--screenshot", "-url", "https://example.com"]
          ⟨.inherit, .inherit⟩ "/tmp/html2image",
         Effect.moveOverwrite "/tmp/html2image/screenshot.png" "/out/a.png"] } := by
  decide

example :
    FirefoxHeadless.screenshot posixEnv sampleBrowser "" "/out" "a.png" (800, 600) =
    { error := some (.valueError "The `input` parameter is empty."), effects := [] } := by
  decide

example :
    FirefoxHeadless.screenshot posixEnv sampleBrowser "x.html" "/out" "a.png" (0, 600) =
    { error := some (.valueError ("Could not screenshot \"a.png\" with a size of (0, 600)" ++
        ":\nA valid size consists of two integers greater than 0.")), effects := [] } := by
  decide

/-- A locator that resolves an explicit hint to itself and fails with a
resolution error when no hint is given; used in concrete evaluations. -/
def sampleLocator : Locator := fun hint =>
  match hint with
  | some h => Except.ok h
  | Option.none => Except.error (.resolutionError "Firefox executable not found")

/-- Evaluation of a `screenshot` call that passes validation, given the
temp root the environment yields. -/
theorem screenshot_valid_eq (env : Env) (b : FirefoxHeadless)
    (input output_path output_file : String) (w h : Int) (root : String)
    (hi : input ≠ "") (hw : 1 ≤ w) (hh : 1 ≤ h)
    (hroot : tempRootE env = Except.ok root) :
    FirefoxHeadless.screenshot env b input output_path output_file (w, h) =
      { error := Option.none
        effects :=
          (if b.print_command then
            [Effect.printStdout (String.intercalate " " (buildCommand b input (w, h)))]
           else []) ++
          [Effect.runSubprocess (buildCommand b input (w, h)) b._subprocess_run_kwargs
             (osPathJoin env.osName root "html2image"),
           Effect.moveOverwrite
             (osPathJoin env.osName (osPathJoin env.osName root "html2image") "screenshot.png")
             (osPathJoin env.osName output_path output_file)] } := by
  have hsz : ¬((w, h).1 < 1 ∨ (w, h).2 < 1) := by
    show ¬(w < 1 ∨ h < 1)
    omega
  unfold FirefoxHeadless.screenshot
  rw [if_neg hi, if_neg hsz, hroot]

/-- The error raised by the temp-root lookup can only be the `KeyError` for
`TMP`. -/
theorem tempRootE_error_eq (env : Env) (e : PyError)
    (h : tempRootE env = Except.error e) : e = PyError.keyError "TMP" := by
  unfold tempRootE at h
  by_cases hnt : env.osName = "nt"
  · rw [if_pos hnt] at h
    cases htmp : env.tmp <;> rw [htmp] at h <;> simp at h
    exact h.symm
  · rw [if_neg hnt] at h
    simp at h

/-- A string equal to `a ++ pat ++ b` contains `pat`. -/
theorem strContains_of_eq (a pat b s : String) (h : s = a ++ pat ++ b) :
    strContains s pat := by
  subst h
  exact ⟨a.toList, b.toList, by simp [String.toList]⟩

/-- C1: for every successful call, the destination is `output_path` joined
with `output_file`, and after the child process terminates the file
`screenshot.png` is moved from the fixed temp directory to that
destination, overwriting any file already there (the move is the last
effect, after the subprocess run). -/
theorem screenshot_moves_output (env : Env) (b : FirefoxHeadless)
    (input output_path output_file : String) (w h : Int) (root : String)
    (hi : input ≠ "") (hw : 1 ≤ w) (hh : 1 ≤ h)
    (hroot : tempRootE env = Except.ok root) :
    ∃ pre cmd kw,
      (FirefoxHeadless.screenshot env b input output_path output_file (w, h)).error
        = Option.none ∧
      (FirefoxHeadless.screenshot env b input output_path output_file (w, h)).effects
        = pre ++
          [Effect.runSubprocess cmd kw (osPathJoin env.osName root "html2image"),
           Effect.moveOverwrite
             (osPathJoin env.osName (osPathJoin env.osName root "html2image") "screenshot.png")
             (osPathJoin env.osName output_path output_file)] := by
  rw [screenshot_valid_eq env b input output_path output_file w h root hi hw hh hroot]
  exact ⟨_, _, _, rfl, rfl⟩

/-- C1 witness at a concrete valid call. -/
theorem screenshot_moves_output_witness :
    ∃ pre cmd kw,
      (FirefoxHeadless.screenshot posixEnv sampleBrowser
          "https://example.com" "/out" "a.png" (800, 600)).error = Option.none ∧
      (FirefoxHeadless.screenshot posixEnv sampleBrowser
          "https://example.com" "/out" "a.png" (800, 600)).effects
        = pre ++
          [Effect.runSubprocess cmd kw (osPathJoin posixEnv.osName "/tmp" "html2image"),
           Effect.moveOverwrite
             (osPathJoin posixEnv.osName (osPathJoin posixEnv.osName "/tmp" "html2image")
               "screenshot.png")
             (osPathJoin posixEnv.osName "/out" "a.png")] :=
  screenshot_moves_output posixEnv sampleBrowser "https://example.com" "/out" "a.png"
    800 600 "/tmp" (by decide) (by decide) (by decide) rfl

/-- C2: for every call that passes validation, the executed command line
is exactly, in order: the executable, `--headless`,
`--window-size=<w>,<h>`, the configured flags in order, `--screenshot`,
`-url`, and the input. -/
theorem screenshot_command_exact (env : Env) (b : FirefoxHeadless)
    (input output_path output_file : String) (w h : Int) (root : String)
    (hi : input ≠ "") (hw : 1 ≤ w) (hh : 1 ≤ h)
    (hroot : tempRootE env = Except.ok root) :
    cmdOf (FirefoxHeadless.screenshot env b input output_path output_file (w, h))
      = some ([b._executable, "--headless",
               "--window-size=" ++ toString w ++ "," ++ toString h]
              ++ b.flags
              ++ ["--screenshot", "-url", input]) := by
  rw [screenshot_valid_eq env b input output_path output_file w h root hi hw hh hroot]
  cases hpc : b.print_command <;>
    simp [cmdOf, hpc, List.findSome?, buildCommand]

/-- C2 witness at the spec's scenario input. -/
theorem screenshot_command_exact_witness :
    cmdOf (FirefoxHeadless.screenshot posixEnv sampleBrowser
        "https://example.com" "/out" "a.png" (800, 600))
      = some (["/usr/bin/firefox", "--headless", "--window-size=800,600"]
              ++ defaultFlags
              ++ ["--screenshot", "-url", "https://example.com"]) :=
  screenshot_command_exact posixEnv sampleBrowser "https://example.com" "/out" "a.png"
    800 600 "/tmp" (by decide) (by decide) (by decide) rfl

/-- C3: for an empty input and any values of the other parameters,
`screenshot` raises the `ValueError` for empty input and performs no
effect at all — in particular no subprocess is spawned and no
filesystem access happens. -/
theorem screenshot_empty_input (env : Env) (b : FirefoxHeadless)
    (output_path output_file : String) (size : Int × Int) :
    FirefoxHeadless.screenshot env b "" output_path output_file size =
      { error := some (.valueError inputEmptyMsg), effects := [] } := by
  rfl

/-- C4 counterexample: with an empty input and size `(0, 600)`, the call
raises the empty-input `ValueError`, whose message contains neither the
output file name `a.png` nor the rejected size tuple — so the claim,
read over all parameter values, fails. -/
theorem size_error_message_counterexample :
    (FirefoxHeadless.screenshot posixEnv sampleBrowser "" "/out" "a.png" (0, 600)).error
      = some (.valueError inputEmptyMsg) ∧
    ¬ strContains inputEmptyMsg "a.png" ∧
    ¬ strContains inputEmptyMsg (pyPairRepr (0, 600)) := by
  refine ⟨rfl, ?_, ?_⟩ <;> decide

/-- C4 amended: for every size pair with a dimension below 1 and a
NON-EMPTY input, `screenshot` raises a `ValueError` before any effect,
and its message contains both the output file name and the rejected size
tuple. -/
theorem size_error_message (env : Env) (b : FirefoxHeadless)
    (input output_path output_file : String) (w h : Int)
    (hi : input ≠ "") (hs : w < 1 ∨ h < 1) :
    FirefoxHeadless.screenshot env b input output_path output_file (w, h) =
      { error := some (.valueError (sizeErrorMsg output_file (w, h))), effects := [] } ∧
    strContains (sizeErrorMsg output_file (w, h)) output_file ∧
    strContains (sizeErrorMsg output_file (w, h)) (pyPairRepr (w, h)) := by
  refine ⟨?_, ?_, ?_⟩
  · unfold FirefoxHeadless.screenshot
    rw [if_neg hi, if_pos (show (w, h).1 < 1 ∨ (w, h).2 < 1 from hs)]
  · exact strContains_of_eq "Could not screenshot \"" output_file
      ("\" with a size of " ++ pyPairRepr (w, h) ++
        ":\nA valid size consists of two integers greater than 0.") _
      (by simp [sizeErrorMsg, String.append_assoc])
  · exact strContains_of_eq ("Could not screenshot \"" ++ output_file ++ "\" with a size of ")
      (pyPairRepr (w, h))
      ":\nA valid size consists of two integers greater than 0." _
      (by simp [sizeErrorMsg, String.append_assoc])

/-- C4 witness at the spec's scenario input `(0, 600)`. -/
theorem size_error_message_witness :
    FirefoxHeadless.screenshot posixEnv sampleBrowser "x.html" "/out" "a.png" (0, 600) =
      { error := some (.valueError (sizeErrorMsg "a.png" (0, 600))), effects := [] } ∧
    strContains (sizeErrorMsg "a.png" (0, 600)) "a.png" ∧
    strContains (sizeErrorMsg "a.png" (0, 600)) (pyPairRepr (0, 600)) :=
  size_error_message posixEnv sampleBrowser "x.html" "/out" "a.png" 0 600
    (by decide) (by decide)

/-- C5: for every non-empty input and size with both dimensions at least 1,
`screenshot` raises no validation (`ValueError`) error: both validation
branches are unreachable. -/
theorem screenshot_no_validation_error (env : Env) (b : FirefoxHeadless)
    (input output_path output_file : String) (w h : Int)
    (hi : input ≠ "") (hw : 1 ≤ w) (hh : 1 ≤ h) :
    isValueError
      (FirefoxHeadless.screenshot env b input output_path output_file (w, h)).error
      = false := by
  have hsz : ¬((w, h).1 < 1 ∨ (w, h).2 < 1) := by
    show ¬(w < 1 ∨ h < 1)
    omega
  unfold FirefoxHeadless.screenshot
  rw [if_neg hi, if_neg hsz]
  cases htr : tempRootE env with
  | error e =>
    rw [tempRootE_error_eq env e htr]
    rfl
  | ok root => rfl

/-- C5 witness at a concrete valid call. -/
theorem screenshot_no_validation_error_witness :
    isValueError
      (FirefoxHeadless.screenshot posixEnv sampleBrowser
        "https://example.com" "/out" "a.png" (800, 600)).error = false :=
  screenshot_no_validation_error posixEnv sampleBrowser "https://example.com" "/out"
    "a.png" 800 600 (by decide) (by decide) (by decide)

/-- C6 counterexample: the flags argument `['--hide-scrollbars']` is a
supplied (non-empty) flag list, and the configured flag list it produces
contains a default flag — refuting the clause "contains none of the
defaults". -/
theorem flags_replacement_counterexample :
    (FirefoxHeadless.init sampleLocator (some "/usr/bin/firefox")
        (FlagsArg.list ["--hide-scrollbars"]) false false).map FirefoxHeadless.flags
      = Except.ok ["--hide-scrollbars"] ∧
    "--hide-scrollbars" ∈ defaultFlags := by
  refine ⟨rfl, by decide⟩

/-- C6 amended: when no flags are supplied, or the supplied value is falsy
(empty list or empty string), the configured flag list is exactly the two
documented defaults; when a non-empty flags value is supplied, the
configured flag list is exactly the supplied flags with no defaults merged
in — it contains a default only if the supplied flags themselves include
one. -/
theorem flags_replacement (locator : Locator) (exe : Option String) (p : String)
    (pc dl : Bool) (l : List String) (s : String)
    (hloc : locator exe = Except.ok p) (hl : l ≠ []) (hs : s ≠ "") :
    (FirefoxHeadless.init locator exe FlagsArg.none pc dl).map FirefoxHeadless.flags
      = Except.ok defaultFlags ∧
    (FirefoxHeadless.init locator exe (FlagsArg.list []) pc dl).map FirefoxHeadless.flags
      = Except.ok defaultFlags ∧
    (FirefoxHeadless.init locator exe (FlagsArg.str "") pc dl).map FirefoxHeadless.flags
      = Except.ok defaultFlags ∧
    (FirefoxHeadless.init locator exe (FlagsArg.list l) pc dl).map FirefoxHeadless.flags
      = Except.ok l ∧
    (FirefoxHeadless.init locator exe (FlagsArg.str s) pc dl).map FirefoxHeadless.flags
      = Except.ok [s] := by
  simp [FirefoxHeadless.init, FirefoxHeadless.setExecutable, hloc, Except.map,
    FirefoxHeadless.setDisableLogging, initFlags, hl, hs]

/-- C6 witness at concrete flag arguments. -/
theorem flags_replacement_witness :
    (FirefoxHeadless.init sampleLocator (some "/usr/bin/firefox") FlagsArg.none
        false false).map FirefoxHeadless.flags = Except.ok defaultFlags ∧
    (FirefoxHeadless.init sampleLocator (some "/usr/bin/firefox") (FlagsArg.list [])
        false false).map FirefoxHeadless.flags = Except.ok defaultFlags ∧
    (FirefoxHeadless.init sampleLocator (some "/usr/bin/firefox") (FlagsArg.str "")
        false false).map FirefoxHeadless.flags = Except.ok defaultFlags ∧
    (FirefoxHeadless.init sampleLocator (some "/usr/bin/firefox")
        (FlagsArg.list ["--no-sandbox"]) false false).map FirefoxHeadless.flags
      = Except.ok ["--no-sandbox"] ∧
    (FirefoxHeadless.init sampleLocator (some "/usr/bin/firefox")
        (FlagsArg.str "--no-sandbox") false false).map FirefoxHeadless.flags
      = Except.ok ["--no-sandbox"] :=
  flags_replacement sampleLocator (some "/usr/bin/firefox") "/usr/bin/firefox"
    false false ["--no-sandbox"] "--no-sandbox" rfl (by decide) (by decide)

/-- C7: every call that passes validation runs the child process with the
same fixed working directory — the platform temp root (`TMP` on `nt`,
`/tmp` otherwise) joined with the fixed subdirectory `html2image` —
independent of the call's parameters and the instance used. -/
theorem subprocess_fixed_temp_cwd (env : Env) (b₁ b₂ : FirefoxHeadless)
    (input₁ output_path₁ output_file₁ input₂ output_path₂ output_file₂ : String)
    (w₁ h₁ w₂ h₂ : Int) (root : String)
    (hi₁ : input₁ ≠ "") (hw₁ : 1 ≤ w₁) (hh₁ : 1 ≤ h₁)
    (hi₂ : input₂ ≠ "") (hw₂ : 1 ≤ w₂) (hh₂ : 1 ≤ h₂)
    (hroot : tempRootE env = Except.ok root) :
    cwdOf (FirefoxHeadless.screenshot env b₁ input₁ output_path₁ output_file₁ (w₁, h₁))
      = some (osPathJoin env.osName root "html2image") ∧
    cwdOf (FirefoxHeadless.screenshot env b₂ input₂ output_path₂ output_file₂ (w₂, h₂))
      = some (osPathJoin env.osName root "html2image") ∧
    (env.osName = "nt" → env.tmp = some root) ∧
    (env.osName ≠ "nt" → root = "/tmp") := by
  refine ⟨?_, ?_, ?_, ?_⟩
  · rw [screenshot_valid_eq env b₁ input₁ output_path₁ output_file₁ w₁ h₁ root
      hi₁ hw₁ hh₁ hroot]
    cases hpc : b₁.print_command <;> simp [cwdOf, hpc, List.findSome?]
  · rw [screenshot_valid_eq env b₂ input₂ output_path₂ output_file₂ w₂ h₂ root
      hi₂ hw₂ hh₂ hroot]
    cases hpc : b₂.print_command <;> simp [cwdOf, hpc, List.findSome?]
  · intro hnt
    unfold tempRootE at hroot
    rw [if_pos hnt] at hroot
    cases htmp : env.tmp <;> rw [htmp] at hroot <;> simp at hroot
    rw [hroot]
  · intro hnt
    unfold tempRootE at hroot
    rw [if_neg hnt] at hroot
    simp at hroot
    exact hroot.symm

/-- C7 witness: two concrete valid calls with different parameters share
the same subprocess working directory. -/
theorem subprocess_fixed_temp_cwd_witness :
    cwdOf (FirefoxHeadless.screenshot posixEnv sampleBrowser
        "https://example.com" "/out" "a.png" (800, 600))
      = some (osPathJoin posixEnv.osName "/tmp" "html2image") ∧
    cwdOf (FirefoxHeadless.screenshot posixEnv sampleBrowser
        "x.html" "/elsewhere" "b.png" (1920, 1080))
      = some (osPathJoin posixEnv.osName "/tmp" "html2image") ∧
    (posixEnv.osName = "nt" → posixEnv.tmp = some "/tmp") ∧
    (posixEnv.osName ≠ "nt" → "/tmp" = "/tmp") :=
  subprocess_fixed_temp_cwd posixEnv sampleBrowser sampleBrowser
    "https://example.com" "/out" "a.png" "x.html" "/elsewhere" "b.png"
    800 600 1920 1080 "/tmp"
    (by decide) (by decide) (by decide) (by decide) (by decide) (by decide) rfl

/-- C8: after any assignment to `disable_logging`, the stored flag and the
cached subprocess stream kwargs agree with the assigned value, and a
subsequent valid `screenshot` call runs the child with both streams
redirected to the null sink when the value is true, and inherited when it
is false. -/
theorem disable_logging_streams (b : FirefoxHeadless) (v : Bool) (env : Env)
    (input output_path output_file : String) (w h : Int) (root : String)
    (hi : input ≠ "") (hw : 1 ≤ w) (hh : 1 ≤ h)
    (hroot : tempRootE env = Except.ok root) :
    (b.setDisableLogging v)._disable_logging = v ∧
    (b.setDisableLogging v)._subprocess_run_kwargs
      = (if v then ⟨.devnull, .devnull⟩ else ⟨.inherit, .inherit⟩) ∧
    kwargsOf (FirefoxHeadless.screenshot env (b.setDisableLogging v)
        input output_path output_file (w, h))
      = some (if v then ⟨.devnull, .devnull⟩ else ⟨.inherit, .inherit⟩) := by
  refine ⟨rfl, rfl, ?_⟩
  rw [screenshot_valid_eq env (b.setDisableLogging v) input output_path output_file
    w h root hi hw hh hroot]
  cases hpc : (b.setDisableLogging v).print_command <;>
    simp [kwargsOf, hpc, List.findSome?, FirefoxHeadless.setDisableLogging]

/-- C8 witness at both values of `disable_logging`: here at `true` (the
`false` side is covered by the `if` evaluating under `decide` in other
witnesses using `sampleBrowser`). -/
theorem disable_logging_streams_witness :
    (sampleBrowser.setDisableLogging true)._disable_logging = true ∧
    (sampleBrowser.setDisableLogging true)._subprocess_run_kwargs
      = (if true then ⟨.devnull, .devnull⟩ else ⟨.inherit, .inherit⟩) ∧
    kwargsOf (FirefoxHeadless.screenshot posixEnv (sampleBrowser.setDisableLogging true)
        "https://example.com" "/out" "a.png" (800, 600))
      = some (if true then ⟨.devnull, .devnull⟩ else ⟨.inherit, .inherit⟩) :=
  disable_logging_streams sampleBrowser true posixEnv "https://example.com" "/out"
    "a.png" 800 600 "/tmp" (by decide) (by decide) (by decide) rfl

/-- `screenshot` raises no resolution error: its only raised errors are the
two validation `ValueError`s and the `KeyError` of the temp-root lookup. -/
theorem screenshot_no_resolution_error (env : Env) (b : FirefoxHeadless)
    (input output_path output_file : String) (size : Int × Int) (msg : String) :
    (FirefoxHeadless.screenshot env b input output_path output_file size).error
      ≠ some (.resolutionError msg) := by
  unfold FirefoxHeadless.screenshot
  by_cases h1 : input = ""
  · rw [if_pos h1]
    simp
  · rw [if_neg h1]
    by_cases h2 : size.1 < 1 ∨ size.2 < 1
    · rw [if_pos h2]
      simp
    · rw [if_neg h2]
      cases htr : tempRootE env with
      | error e =>
        rw [tempRootE_error_eq env e htr]
        simp
      | ok root => simp

/-- C9: both the constructor and every assignment to the `executable`
attribute invoke the locator — a locator failure surfaces as an error of
the assignment itself, and on success the stored executable is exactly
the locator's result — while `screenshot` never invokes the locator and
hence never raises a resolution error. -/
theorem executable_resolution_at_config_time (locator : Locator)
    (b : FirefoxHeadless) (value value' : Option String) (e : PyError) (p : String)
    (fa : FlagsArg) (pc dl : Bool) (env : Env)
    (input output_path output_file : String) (size : Int × Int) (msg : String)
    (he : locator value = Except.error e) (hp : locator value' = Except.ok p) :
    b.setExecutable locator value = Except.error e ∧
    (b.setExecutable locator value').map FirefoxHeadless._executable = Except.ok p ∧
    FirefoxHeadless.init locator value fa pc dl = Except.error e ∧
    (FirefoxHeadless.init locator value' fa pc dl).map FirefoxHeadless._executable
      = Except.ok p ∧
    (FirefoxHeadless.screenshot env b input output_path output_file size).error
      ≠ some (.resolutionError msg) := by
  refine ⟨?_, ?_, ?_, ?_, screenshot_no_resolution_error env b input output_path
    output_file size msg⟩
  · simp [FirefoxHeadless.setExecutable, he, Except.map]
  · simp [FirefoxHeadless.setExecutable, hp, Except.map]
  · simp [FirefoxHeadless.init, FirefoxHeadless.setExecutable, he, Except.map]
  · simp [FirefoxHeadless.init, FirefoxHeadless.setExecutable, hp, Except.map,
      FirefoxHeadless.setDisableLogging]

/-- C9 witness: a locator that fails on an absent hint and succeeds on an
explicit one, exercised through the setter, the constructor and a
screenshot call. -/
theorem executable_resolution_at_config_time_witness :
    sampleBrowser.setExecutable sampleLocator Option.none
      = Except.error (.resolutionError "Firefox executable not found") ∧
    (sampleBrowser.setExecutable sampleLocator
        (some "/usr/bin/firefox")).map FirefoxHeadless._executable
      = Except.ok "/usr/bin/firefox" ∧
    FirefoxHeadless.init sampleLocator Option.none FlagsArg.none false false
      = Except.error (.resolutionError "Firefox executable not found") ∧
    (FirefoxHeadless.init sampleLocator (some "/usr/bin/firefox") FlagsArg.none
        false false).map FirefoxHeadless._executable = Except.ok "/usr/bin/firefox" ∧
    (FirefoxHeadless.screenshot posixEnv sampleBrowser
        "https://example.com" "/out" "a.png" (800, 600)).error
      ≠ some (.resolutionError "Firefox executable not found") :=
  executable_resolution_at_config_time sampleLocator sampleBrowser Option.none
    (some "/usr/bin/firefox") (.resolutionError "Firefox executable not found")
    "/usr/bin/firefox" FlagsArg.none false false posixEnv
    "https://example.com" "/out" "a.png" (800, 600)
    "Firefox executable not found" rfl rfl

/-- C10: a single non-empty string supplied as the flags argument becomes
the one-element flag list containing that string (it is not iterated
character by character), and the composed command line contains it as one
argument. -/
theorem string_flag_single_argument (locator : Locator) (exe : Option String)
    (p : String) (pc dl : Bool) (s input : String) (w h : Int)
    (hloc : locator exe = Except.ok p) (hs : s ≠ "") :
    (FirefoxHeadless.init locator exe (FlagsArg.str s) pc dl).map FirefoxHeadless.flags
      = Except.ok [s] ∧
    (FirefoxHeadless.init locator exe (FlagsArg.str s) pc dl).map
        (fun b => decide (s ∈ buildCommand b input (w, h)))
      = Except.ok true := by
  constructor
  · simp [FirefoxHeadless.init, FirefoxHeadless.setExecutable, hloc, Except.map,
      FirefoxHeadless.setDisableLogging, initFlags, hs]
  · simp [FirefoxHeadless.init, FirefoxHeadless.setExecutable, hloc, Except.map,
      FirefoxHeadless.setDisableLogging, initFlags, hs, buildCommand]

/-- C10 witness at a concrete string flag. -/
theorem string_flag_single_argument_witness :
    (FirefoxHeadless.init sampleLocator (some "/usr/bin/firefox")
        (FlagsArg.str "--no-sandbox") false false).map FirefoxHeadless.flags
      = Except.ok ["--no-sandbox"] ∧
    (FirefoxHeadless.init sampleLocator (some "/usr/bin/firefox")
        (FlagsArg.str "--no-sandbox") false false).map
        (fun b => decide ("--no-sandbox" ∈ buildCommand b "x.html" (800, 600)))
      = Except.ok true :=
  string_flag_single_argument sampleLocator (some "/usr/bin/firefox")
    "/usr/bin/firefox" false false "--no-sandbox" "x.html" 800 600 rfl (by decide)

end Html2Image
